import Mathlib

/-!
# Verification of the instagram-scraper core against its specification

This file gives a shallow embedding, in Lean 4, of the core of the
`scraper` Python package (block detection, token discovery, count-string
parsing, post parsing, retry/backoff, and the feed-pagination loop of
`InstagramClient.scrape_full`), together with theorems settling the
spec's claims about those functions.

Conventions of the embedding:
* Python JSON values (the result of `response.json()`) are modelled by the
  inductive type `Json` below.  JSON numbers are modelled by `Int`; no claim
  under scrutiny involves fractional JSON numbers.  Python's `json` module
  decodes JSON `null` to the Python object `None`; consequently a missing
  dictionary key and a key holding `null` are both represented by
  `Json.null` when read through `dict.get`.
* Python exceptions are modelled by `Except PyErr`.
* `random.uniform` calls are modelled as oracle parameters: the caller of
  the embedded function supplies the value drawn.
* Wall-clock fields (`scraped_at`) are omitted; the `datetime` produced by
  `datetime.utcfromtimestamp` is modelled by the unix timestamp itself
  (the conversion is injective, so calendar-time facts are faithfully
  represented by the underlying seconds value).
-/

namespace Scraper

/-- Model of a Python value decoded from JSON (`response.json()`).
JSON `null` and Python `None` coincide (see module header). -/
inductive Json where
  | null : Json
  | bool : Bool → Json
  | num : Int → Json
  | str : String → Json
  | arr : List Json → Json
  | obj : List (String × Json) → Json

/-- Model of the Python exceptions the scraper's code paths can raise. -/
inductive PyErr where
  | attributeError : PyErr
  | typeError : PyErr
  | valueError : PyErr
  | overflowError : PyErr
  | keyError : PyErr
  | validationError : PyErr
deriving DecidableEq, Repr

/-- Python truthiness (`bool(x)`) for the modelled values:
`None`/`False`/`0`/`""`/`[]`/`{}` are falsy, everything else truthy. -/
def pyTruthy : Json → Bool
  | .null => false
  | .bool b => b
  | .num n => n != 0
  | .str s => s != ""
  | .arr xs => !xs.isEmpty
  | .obj kvs => !kvs.isEmpty

/-- `d.get(key, default)` on a Python dict decoded from JSON. -/
def jGetD (kvs : List (String × Json)) (key : String) (dflt : Json) : Json :=
  match kvs.lookup key with
  | some v => v
  | none => dflt

/-- `d.get(key)` (default `None`). -/
def jGet (kvs : List (String × Json)) (key : String) : Json :=
  jGetD kvs key .null

/-- Scan of a character list for an occurrence of `needle` starting at any
position (the empty needle occurs in every list, as in Python). -/
def listContainsSub (needle : List Char) : List Char → Bool
  | [] => needle.isEmpty
  | c :: rest => needle.isPrefixOf (c :: rest) || listContainsSub needle rest

/-- Python substring containment `needle in hay` for `str` values. -/
def strContains (hay needle : String) : Bool :=
  listContainsSub needle.toList hay.toList

/-- ASCII lower-casing of one character. -/
def asciiLower (c : Char) : Char :=
  if 'A' ≤ c && c ≤ 'Z' then Char.ofNat (c.toNat + 32) else c

/-- Python `str.lower()` (ASCII case folding; every pattern the source
scans for is ASCII, so case-insensitive matching is unaffected). -/
def pyLower (s : String) : String :=
  String.mk (s.toList.map asciiLower)

/-- Python whitespace for `str.strip()` (the ASCII whitespace set). -/
def isPySpace (c : Char) : Bool :=
  c == ' ' || c == '\t' || c == '\n' || c == '\r' ||
    c == (Char.ofNat 11) || c == (Char.ofNat 12)

/-- Python `str.strip()` with no argument. -/
def pyStrip (s : String) : String :=
  String.mk (((s.toList.dropWhile isPySpace).reverse.dropWhile isPySpace).reverse)

/-- The `BLOCK_PATTERNS` table of `scraper/config.py`, in source (insertion)
order: the content phrases scanned for when the `og:` meta markers are not
both present. -/
def BLOCK_PATTERNS : List (String × List String) :=
  [ ("login_required",
      ["Login required", "Please wait a few minutes before you try again"]),
    ("challenge_required", ["checkpoint_required"]),
    ("not_found", ["Page not found", "Sorry, this page isn"]),
    ("rate_limited", ["Please wait a few minutes", "rate limit"]) ]

/-- Outcome of `InstagramClient._check_for_blocks`: either it returns
normally, or it raises `BlockDetectedError(blockType, msg)`, or it raises
`RetryableError`. -/
inductive BlockCheck where
  | ok : BlockCheck
  | blocked : String → BlockCheck
  | retryable : BlockCheck
deriving DecidableEq, Repr

/-- Scan the `BLOCK_PATTERNS` table in order against the lowered body;
the first pattern whose lowering occurs in the body wins
(the inner loop of `_check_for_blocks`). -/
def scanBlockPatterns (htmlLower : String) : Option String :=
  BLOCK_PATTERNS.foldr
    (fun (bt : String × List String) (acc : Option String) =>
      match bt.2.find? (fun p => strContains htmlLower (pyLower p)) with
      | some _ => some bt.1
      | none => acc)
    none

/-- Embedding of `InstagramClient._check_for_blocks(response, html)`.
`urlPath` is `response.url.path`.  Decision order is the source's:
login redirect, challenge redirect, the `og:` meta-marker suppression rule
(return immediately), the content-pattern scan, and finally the
minimal-response heuristic. -/
def checkForBlocks (urlPath html : String) : BlockCheck :=
  if strContains urlPath "/accounts/login" then .blocked "login_required"
  else if strContains urlPath "/challenge" then .blocked "challenge_required"
  else if strContains html "property=\"og:title\"" &&
          strContains html "property=\"og:description\"" then .ok
  else
    match scanBlockPatterns (pyLower html) with
    | some bt => .blocked bt
    | none =>
      if html.length < 1000 && !strContains html "username" then .retryable
      else .ok

/-! ## Token discovery (`scraper/parsers.py`, class `TokenDiscovery`,
and the pattern tables of `scraper/config.py`) -/

/-- The `PATTERNS` table of `scraper/config.py`.  Every pattern in the
source has the regex shape `LITERAL(\d+)"`; the table is represented by
mapping each key to the pattern's literal prefix (the part before the
capturing digit group).  The keys are exactly the source's keys:
`app_id`, `app_id_alt`, `asbd_id`. -/
def PATTERNS : List (String × String) :=
  [ ("app_id", "\"X-IG-App-ID\":\""),
    ("app_id_alt", "\x7b\"APP_ID\":\""),
    ("asbd_id", "\"X-ASBD-ID\":\"") ]

/-- The `FALLBACK_VALUES` table of `scraper/config.py`. -/
def FALLBACK_VALUES : List (String × String) :=
  [ ("app_id", "936619743392459"),
    ("asbd_id", "129477") ]

/-- At a fixed position, match the tail of a `LITERAL(\d+)"` pattern:
one or more digits followed by a double quote; return the digits.
(The digit group is greedy; since `"` is not a digit no backtracking can
produce a different match, so greedy matching is exact.) -/
def digitsThenQuoteAt (s : List Char) : Option String :=
  let ds := s.takeWhile Char.isDigit
  if ds.isEmpty then none
  else
    match s.drop ds.length with
    | '"' :: _ => some (String.mk ds)
    | _ => none

/-- `re.search` for a pattern of shape `LITERAL(\d+)"`: find the leftmost
position where the literal prefix, then one or more digits, then `"` match,
and return the captured digit group. -/
def searchLitDigits (lit : List Char) : List Char → Option String
  | [] => none
  | c :: rest =>
    if lit.isPrefixOf (c :: rest) then
      match digitsThenQuoteAt ((c :: rest).drop lit.length) with
      | some d => some d
      | none => searchLitDigits lit rest
    else searchLitDigits lit rest

/-- Run the `PATTERNS` entry named `key` against `html`
(`re.search(PATTERNS[key], html)`, returning the captured group). -/
def searchPattern (key : String) (html : String) : Option String :=
  searchLitDigits ((PATTERNS.lookup key).getD "").toList html.toList

/-- Model of `SessionTokens` (`scraper/models.py`). -/
structure SessionTokens where
  app_id : String
  csrf_token : String
  asbd_id : Option String
deriving DecidableEq, Repr

/-- `TokenDiscovery.extract_app_id`: primary pattern, then the alternate
pattern, then the hardcoded fallback constant. -/
def extract_app_id (html : String) : String :=
  match searchPattern "app_id" html with
  | some d => d
  | none =>
    match searchPattern "app_id_alt" html with
    | some d => d
    | none => (FALLBACK_VALUES.lookup "app_id").getD ""

/-- `TokenDiscovery.extract_asbd_id`: its single pattern, then
`FALLBACK_VALUES.get("asbd_id")` (which is present in the table, so the
result is never `none`). -/
def extract_asbd_id (html : String) : Option String :=
  match searchPattern "asbd_id" html with
  | some d => some d
  | none => FALLBACK_VALUES.lookup "asbd_id"

/-- `TokenDiscovery.discover_all(html, csrf_token)`. -/
def discover_all (html csrf_token : String) : SessionTokens :=
  { app_id := extract_app_id html
    csrf_token := csrf_token
    asbd_id := extract_asbd_id html }

/-! ## Count-string parsing (`ProfileParser.parse_count_string`)

Python `float(...)` applied to a decimal-literal string is modelled
exactly: the literal's rational value is computed as an explicit fraction,
and values at or beyond `2^1024` (the IEEE-754 binary64 overflow
threshold) become infinities, as in CPython where `float("1e400")`
evaluates to `inf`.  Finite values are kept as exact fractions: every
decimal literal appearing in the claims is exactly representable through
the subsequent multiply/truncate, so exact arithmetic agrees with binary64
evaluation on them.  `int()` applied to an infinite float raises
`OverflowError`, which `parse_count_string`'s `except ValueError` clause
does not catch. -/

/-- An exact fraction with positive denominator (every operation below
keeps the denominator positive); not necessarily reduced. -/
structure Frac where
  num : Int
  den : Nat
deriving DecidableEq, Repr

/-- Embed a natural number as a fraction. -/
def Frac.ofNat (n : Nat) : Frac := ⟨n, 1⟩

/-- Fraction multiplication. -/
def Frac.mul (a b : Frac) : Frac := ⟨a.num * b.num, a.den * b.den⟩

/-- Fraction addition. -/
def Frac.add (a b : Frac) : Frac :=
  ⟨a.num * b.den + b.num * a.den, a.den * b.den⟩

/-- Negation. -/
def Frac.neg (a : Frac) : Frac := ⟨-a.num, a.den⟩

/-- Comparison `a ≤ b` (cross multiplication; denominators positive). -/
def Frac.le (a b : Frac) : Bool := a.num * b.den ≤ b.num * a.den

/-- The rational value of a fraction (ties the executable fraction
arithmetic to `ℚ` for statement purposes). -/
def Frac.val (a : Frac) : ℚ := (a.num : ℚ) / (a.den : ℚ)

/-- A Python `float` value: a finite fraction, or an infinity. -/
inductive PyFloat where
  | finite : Frac → PyFloat
  | inf : PyFloat
  | ninf : PyFloat
deriving DecidableEq, Repr

/-- The IEEE-754 binary64 overflow threshold `2^1024`, as a fraction
(written as an explicit numeral so that it evaluates by literal
arithmetic; `floatOverflowThreshold_eq` below checks it against
`2^1024`). -/
def floatOverflowThreshold : Frac :=
  ⟨179769313486231590772930519078902473361797697894230657273430081157732675805500963132708477322407536021120113879871393357658789768814416622492847430639474124377767893424865485276302219601246094119453082952085005768838150682342462881473913110540827237163350510684586298239947245938479716304835356329624224137216, 1⟩

/-- Clamp an exact fraction into the binary64 range: magnitudes reaching
`2^1024` overflow to the corresponding infinity. -/
def toPyFloat (q : Frac) : PyFloat :=
  if floatOverflowThreshold.le q then .inf
  else if q.le floatOverflowThreshold.neg then .ninf
  else .finite q

/-- Multiply a Python float by a natural constant (the suffix multiplier),
re-checking for overflow as binary64 multiplication does. -/
def pyFloatMulNat (f : PyFloat) (m : Nat) : PyFloat :=
  match f with
  | .finite q => toPyFloat (q.mul (Frac.ofNat m))
  | .inf => .inf
  | .ninf => .ninf

/-- `int()` of a Python float: truncation toward zero for finite values
(`Int.tdiv` by the positive denominator is exactly truncation toward
zero); `OverflowError` for infinities. -/
def pyIntOfFloat : PyFloat → Except PyErr Int
  | .finite q => .ok (Int.tdiv q.num (Int.ofNat q.den))
  | .inf => .error .overflowError
  | .ninf => .error .overflowError

/-- Parse an unbroken run of decimal digits as a natural number. -/
def digitsToNat (ds : List Char) : Nat :=
  ds.foldl (fun acc c => acc * 10 + (c.toNat - '0'.toNat)) 0

/-- `10^n` on naturals, by structural recursion (so that proofs can
evaluate it step by step). -/
def pow10Nat : Nat → Nat
  | 0 => 1
  | n + 1 => 10 * pow10Nat n

/-- Parse the mantissa of a float literal: `digits`, `digits.`,
`digits.digits`, or `.digits`; returns the value and the remaining input. -/
def parseMantissa (cs : List Char) : Option (Frac × List Char) :=
  let intPart := cs.takeWhile Char.isDigit
  let rest := cs.drop intPart.length
  match rest with
  | '.' :: r =>
    let fracPart := r.takeWhile Char.isDigit
    if intPart.isEmpty && fracPart.isEmpty then none
    else
      some ((Frac.ofNat (digitsToNat intPart)).add
              ⟨digitsToNat fracPart, pow10Nat fracPart.length⟩,
            r.drop fracPart.length)
  | _ =>
    if intPart.isEmpty then none
    else some (Frac.ofNat (digitsToNat intPart), rest)

/-- Parse an optional `+`/`-` sign; return `true` for negative and the
remaining input. -/
def parseSign (cs : List Char) : Bool × List Char :=
  match cs with
  | '+' :: r => (false, r)
  | '-' :: r => (true, r)
  | _ => (false, cs)

/-- Parse an optional exponent part `[eE][+-]?digits`; returns the decimal
scale factor as a fraction and the remaining input (`none` = malformed
exponent). -/
def parseExponent (cs : List Char) : Option (Frac × List Char) :=
  match cs with
  | 'e' :: r | 'E' :: r =>
    let (neg, r') := parseSign r
    let ds := r'.takeWhile Char.isDigit
    if ds.isEmpty then none
    else
      let e := digitsToNat ds
      some (if neg then (⟨1, pow10Nat e⟩, r'.drop ds.length)
            else (Frac.ofNat (pow10Nat e), r'.drop ds.length))
  | _ => some (Frac.ofNat 1, cs)

/-- Python `float(s)` on the decimal-literal fragment of its grammar:
surrounding whitespace, an optional sign, a mantissa and an optional
exponent.  Strings outside this fragment yield `none` (`ValueError`). -/
def pyFloatParse (s : String) : Option PyFloat :=
  let cs := (pyStrip s).toList
  let (neg, cs₁) := parseSign cs
  match parseMantissa cs₁ with
  | none => none
  | some (m, cs₂) =>
    match parseExponent cs₂ with
    | none => none
    | some (scale, cs₃) =>
      if cs₃.isEmpty then
        some (toPyFloat (if neg then (m.mul scale).neg else m.mul scale))
      else none

/-- Python `int(s)` for a string: surrounding whitespace, an optional sign
and one or more digits; anything else raises `ValueError` (`none`). -/
def pyIntParse (s : String) : Option Int :=
  let cs := (pyStrip s).toList
  let (neg, cs₁) := parseSign cs
  let ds := cs₁.takeWhile Char.isDigit
  if ds.isEmpty || !(cs₁.drop ds.length).isEmpty then none
  else some ((if neg then -1 else 1) * (digitsToNat ds : Int))

/-- The `multipliers` dict of `parse_count_string`, in insertion order. -/
def countMultipliers : List (Char × Nat) :=
  [('K', 1000), ('M', 1000000), ('B', 1000000000)]

/-- Embedding of `ProfileParser.parse_count_string`.  The value is an
`Except` because `int(float(...) * mult)` can raise `OverflowError`, which
escapes the function (its `try` only catches `ValueError`). -/
def parse_count_string (count_str : String) : Except PyErr Int :=
  if count_str = "" then .ok 0
  else
    let s := String.mk ((pyStrip count_str).toList.filter (· != ','))
    match countMultipliers.find? (fun km => s.toList.getLast? == some km.1) with
    | some km =>
      match pyFloatParse (String.mk s.toList.dropLast) with
      | none => .ok 0
      | some f =>
        match pyIntOfFloat (pyFloatMulNat f km.2) with
        | .ok n => .ok n
        | .error e => .error e
    | none =>
      match pyIntParse s with
      | some n => .ok n
      | none => .ok 0

/-! ## Post data model (`scraper/models.py`) and post parsing
(`scraper/parsers.py`, class `PostParser`)

Pydantic validation is modelled as follows: a field of declared type
`str`/`int` accepts exactly a value of that type, `Optional[...]`
additionally accepts `None`, and any other value raises
`ValidationError`.  (Pydantic's lax coercions of numeric strings are not
modelled; no claim involves them.)  All exceptions raised while parsing a
single feed item are equivalent for the claims at hand — `parse_feed_response`
catches `Exception` and skips the item — so only *whether* an exception is
raised is significant, not its precise class. -/

/-- Python `str()` of a modelled value: identity on strings, `None` /
`True` / `False` / decimal rendering on the scalar values.  The
element-wise `repr` rendering of containers is not modelled (a fixed
marker stands in for it): the function stays total, as `str()` is, and no
claim depends on the rendering of a container-valued id field. -/
def pyStrOf : Json → String
  | .null => "None"
  | .bool true => "True"
  | .bool false => "False"
  | .num n => toString n
  | .str s => s
  | .arr _ => "[container]"
  | .obj _ => "\x7bcontainer\x7d"

/-- Python `==` between a modelled value and an `int` literal: numeric
equality when the value is a number, `False` for every other type. -/
def jsonEqNum (j : Json) (k : Int) : Bool :=
  match j with
  | .num m => m == k
  | _ => false

/-- Python `==` between a modelled value and a `str` literal. -/
def jsonEqStr (j : Json) (v : String) : Bool :=
  match j with
  | .str s => s == v
  | _ => false

/-- `Location` (`scraper/models.py`). -/
structure Location where
  id : String
  name : String
  slug : Option String
deriving DecidableEq, Repr

/-- `PostData` (`scraper/models.py`), with `scraped_at` omitted
(wall-clock) and `taken_at_datetime` carried as the unix seconds value it
is derived from. -/
structure PostData where
  id : String
  shortcode : String
  caption : Option String
  like_count : Int
  comment_count : Int
  view_count : Option Int
  timestamp : Int
  taken_at_datetime : Option Int
  media_type : String
  is_video : Bool
  video_duration : Option Int
  media_urls : List String
  thumbnail_url : Option String
  location : Option Location
  permalink : String
  owner_username : String
  owner_id : String
deriving DecidableEq, Repr

/-- The keyword arguments of a `PostData(...)` construction, before
`PostData.__init__` post-processing.  `permalink` and `taken_at_datetime`
take their field defaults (`""` and `None`) when a caller does not pass
them, exactly as in the source. -/
structure PostInit where
  id : String
  shortcode : String
  caption : Option String
  like_count : Int
  comment_count : Int
  view_count : Option Int
  timestamp : Int
  taken_at_datetime : Option Int := none
  media_type : String
  is_video : Bool
  video_duration : Option Int
  media_urls : List String
  thumbnail_url : Option String
  location : Option Location
  permalink : String := ""
  owner_username : String
  owner_id : String
deriving DecidableEq, Repr

/-- `PostData.__init__`: after pydantic assigns the supplied fields, a
permalink is auto-generated from the shortcode only when the supplied
permalink is empty (falsy) and the shortcode non-empty, and the
calendar-time field is derived from the timestamp only when the timestamp
is non-zero (truthy) and no calendar time was supplied. -/
def mkPostData (a : PostInit) : PostData :=
  { id := a.id
    shortcode := a.shortcode
    caption := a.caption
    like_count := a.like_count
    comment_count := a.comment_count
    view_count := a.view_count
    timestamp := a.timestamp
    taken_at_datetime :=
      if a.timestamp != 0 && a.taken_at_datetime == none then some a.timestamp
      else a.taken_at_datetime
    media_type := a.media_type
    is_video := a.is_video
    video_duration := a.video_duration
    media_urls := a.media_urls
    thumbnail_url := a.thumbnail_url
    location := a.location
    permalink :=
      if a.permalink == "" && a.shortcode != "" then
        "https://www.instagram.com/p/" ++ a.shortcode ++ "/"
      else a.permalink
    owner_username := a.owner_username
    owner_id := a.owner_id }

/-- Python `key in j` (membership test): key lookup on dicts, substring
containment on strings, element equality on lists; `TypeError` on
non-containers. -/
def pyContainsKey (j : Json) (key : String) : Except PyErr Bool :=
  match j with
  | .obj kvs => .ok (kvs.any (fun kv => kv.1 == key))
  | .str s => .ok (strContains s key)
  | .arr xs => .ok (xs.any (fun e => match e with | .str s => s == key | _ => false))
  | _ => .error .typeError

/-- Python iteration `for x in j`: elements of a list, one-character
strings of a string, keys of a dict; `TypeError` otherwise. -/
def pyIterE : Json → Except PyErr (List Json)
  | .arr xs => .ok xs
  | .str s => .ok (s.toList.map (fun c => .str (String.mk [c])))
  | .obj kvs => .ok (kvs.map (fun kv => .str kv.1))
  | _ => .error .typeError

/-- `candidates[0].get("url", "")` applied to a truthy `candidates` value:
indexing a list and reading `url` from its first element (which must be a
dict); falsy values are skipped by the callers.  Mirrors the Python
failure modes: `[0]` on a non-empty string yields a one-character string
without `.get` (`AttributeError`); `[0]` on a number is `TypeError`; a
string key on a dict of string keys misses (`KeyError`). -/
def firstUrlRaw (candidates : Json) : Except PyErr (Option Json) :=
  if !pyTruthy candidates then .ok none
  else
    match candidates with
    | .arr (c :: _) => match c with
      | .obj cs => .ok (some (jGetD cs "url" (.str "")))
      | _ => .error .attributeError
    | .arr [] => .ok none
    | .str _ => .error .attributeError
    | .obj _ => .error .keyError
    | _ => .error .typeError

/-- The image branch shared by `_extract_media_urls`, the thumbnail
extraction and the carousel children: `if "image_versions2" in j:
j["image_versions2"].get("candidates", [])` followed by `firstUrlRaw`.
Indexing a string or list with a string key raises `TypeError`. -/
def imageCandidateRaw (j : Json) : Except PyErr (Option Json) := do
  let has ← pyContainsKey j "image_versions2"
  if !has then return none
  else
    match j with
    | .obj m =>
      match jGetD m "image_versions2" .null with
      | .obj ivs => firstUrlRaw (jGetD ivs "candidates" (.arr []))
      | _ => .error .attributeError
    | _ => .error .typeError

/-- The video branch shared by `_extract_media_urls` and the carousel
children: `if "video_versions" in j: j.get("video_versions", [])`
followed by `firstUrlRaw`.  `.get` on a non-dict raises
`AttributeError`. -/
def videoVersionRaw (j : Json) : Except PyErr (Option Json) := do
  let has ← pyContainsKey j "video_versions"
  if !has then return none
  else
    match j with
    | .obj m => firstUrlRaw (jGetD m "video_versions" (.arr []))
    | _ => .error .attributeError

/-- Convert one raw `.get("url", "")` result into a `list[str]` element:
pydantic accepts only an actual string there. -/
def urlListElem : Option Json → Except PyErr (List String)
  | none => .ok []
  | some (.str u) => .ok [u]
  | some _ => .error .validationError

/-- Embedding of `PostParser._extract_media_urls(item)`: primary image
candidate, primary video variant, then each carousel child's image and/or
video candidate in child order. -/
def extract_media_urls (m : List (String × Json)) : Except PyErr (List String) := do
  let u1 ← imageCandidateRaw (.obj m) >>= urlListElem
  let u2 ← videoVersionRaw (.obj m) >>= urlListElem
  let children ← pyIterE (jGetD m "carousel_media" (.arr []))
  let childUrls ← children.foldlM
    (fun (acc : List String) child => do
      let ci ← imageCandidateRaw child >>= urlListElem
      let cv ← videoVersionRaw child >>= urlListElem
      return acc ++ ci ++ cv) []
  return u1 ++ u2 ++ childUrls

/-- Validate a value against a pydantic `int` field. -/
def pyInt (j : Json) : Except PyErr Int :=
  match j with
  | .num n => .ok n
  | _ => .error .validationError

/-- Validate a value against a pydantic `Optional[int]` field. -/
def pyOptInt (j : Json) : Except PyErr (Option Int) :=
  match j with
  | .null => .ok none
  | .num n => .ok (some n)
  | _ => .error .validationError

/-- Validate a value against a pydantic `str` field. -/
def pyStrField (j : Json) : Except PyErr String :=
  match j with
  | .str s => .ok s
  | _ => .error .validationError

/-- Validate a value against a pydantic `Optional[str]` field. -/
def pyOptStr (j : Json) : Except PyErr (Option String) :=
  match j with
  | .null => .ok none
  | .str s => .ok (some s)
  | _ => .error .validationError

/-- Embedding of `PostParser.parse_feed_item(item, owner_username)`.
Mirrors the source top to bottom; any Python exception becomes an
`Except.error`. -/
def parse_feed_item (item : Json) (owner_username : String) : Except PyErr PostData := do
  let kvs ← match item with
    | .obj kvs => pure kvs
    | _ => .error .attributeError
  let post_id := pyStrOf (jGetD kvs "pk" (jGetD kvs "id" (.str "")))
  let shortcode ← pyStrField (jGetD kvs "code" (.str ""))
  let caption ← match jGet kvs "caption" with
    | .obj cs =>
      if cs.isEmpty then pure none
      else pyOptStr (jGet cs "text")
    | _ => pure none
  let like_count ← pyInt (jGetD kvs "like_count" (.num 0))
  let comment_count ← pyInt (jGetD kvs "comment_count" (.num 0))
  let playCount := jGet kvs "play_count"
  let view_count ← pyOptInt (if pyTruthy playCount then playCount else jGet kvs "view_count")
  let timestamp ← pyInt (jGetD kvs "taken_at" (.num 0))
  let mediaTypeCode := jGetD kvs "media_type" (.num 1)
  let productType := jGetD kvs "product_type" (.str "")
  let media_type :=
    if jsonEqNum mediaTypeCode 8 then "carousel"
    else if jsonEqNum mediaTypeCode 2 then
      (if jsonEqStr productType "clips" then "reel" else "video")
    else "image"
  let is_video := jsonEqNum mediaTypeCode 2
  let video_duration ← pyOptInt (jGet kvs "video_duration")
  let media_urls ← extract_media_urls kvs
  let thumbRaw ← imageCandidateRaw (.obj kvs)
  let thumbnail_url ← match thumbRaw with
    | none => pure (some "")
    | some v => pyOptStr v
  let locData := jGet kvs "location"
  let location ← match locData with
    | .obj lds =>
      if lds.isEmpty then pure none
      else do
        let name ← pyStrField (jGetD lds "name" (.str ""))
        let slug ← pyOptStr (jGet lds "slug")
        pure (some (Location.mk (pyStrOf (jGetD lds "pk" (jGetD lds "id" (.str "")))) name slug))
    | _ => pure none
  let owner ← match jGetD kvs "user" (.obj []) with
    | .obj os => pure os
    | _ => .error .attributeError
  let owner_id := pyStrOf (jGetD owner "pk" (.str ""))
  let owner_username' ←
    if owner_username == "" then pyStrField (jGetD owner "username" (.str ""))
    else pure owner_username
  return mkPostData
    { id := post_id
      shortcode := shortcode
      caption := caption
      like_count := like_count
      comment_count := comment_count
      view_count := view_count
      timestamp := timestamp
      media_type := media_type
      is_video := is_video
      video_duration := video_duration
      media_urls := media_urls
      thumbnail_url := thumbnail_url
      location := location
      owner_username := owner_username'
      owner_id := owner_id }

/-- The item loop of `parse_feed_response`: parse each item in order,
appending successes and skipping items whose parsing raised. -/
def parseItems (owner_username : String) : List Json → List PostData
  | [] => []
  | it :: rest =>
    match parse_feed_item it owner_username with
    | .ok p => p :: parseItems owner_username rest
    | .error _ => parseItems owner_username rest

/-- Embedding of `PostParser.parse_feed_response(data, owner_username)`,
returning `(posts, next_max_id, more_available)`.  The only way it can
raise is iterating a non-iterable `items` value (`for item in items`);
each item's own failures are caught and skipped. -/
def parse_feed_response (data : List (String × Json)) (owner_username : String) :
    Except PyErr (List PostData × Json × Json) := do
  let items := jGetD data "items" (.arr [])
  let next_max_id := jGet data "next_max_id"
  let more_available := jGetD data "more_available" (.bool false)
  let itemList ← pyIterE items
  return (parseItems owner_username itemList, next_max_id, more_available)

/-! ## Retry/backoff engine (`scraper/utils/retry.py`)

Delays are exact rationals.  `random.uniform(-jitter_range, jitter_range)`
is an oracle: the embedded `calculate_delay` takes the drawn value as an
explicit argument (real callers draw it from `[-delay/4, delay/4]`; the
theorems below hold for every value, which subsumes that range). -/

/-- `RetryConfig` (`scraper/utils/retry.py`), with the source's default
field values. -/
structure RetryConfig where
  max_attempts : Nat := 5
  base_delay : ℚ := 2
  max_delay : ℚ := 300
  exponential_base : ℚ := 2
  jitter : Bool := true
  retry_on_status : List Nat := [429, 500, 502, 503, 504]
deriving DecidableEq, Repr

/-- The default `RetryConfig()`. -/
def defaultRetryConfig : RetryConfig := {}

/-- The pre-jitter part of `calculate_delay`: the rate-limit-amplified
base, exponential growth in the attempt index, capped at `max_delay`. -/
def preJitterDelay (attempt : Nat) (cfg : RetryConfig) (status : Option Nat) : ℚ :=
  let base := if status == some 429 then cfg.base_delay * 5 else cfg.base_delay
  min (base * cfg.exponential_base ^ attempt) cfg.max_delay

/-- Embedding of `calculate_delay(attempt, config, response_status)`;
`noise` is the value drawn by `random.uniform` when jitter is enabled. -/
def calculate_delay (attempt : Nat) (cfg : RetryConfig) (status : Option Nat)
    (noise : ℚ) : ℚ :=
  let delay := preJitterDelay attempt cfg status
  let delay := if cfg.jitter then delay + noise else delay
  max delay (1/10)

/-- Outcome of one attempt of the wrapped operation, as seen by the
`with_retry` wrapper: success, an `httpx.HTTPStatusError`, a transport
error (`httpx.ConnectError` / `httpx.TimeoutException`), a
`RetryableError`, or any other exception (which the wrapper does not
catch). -/
inductive AttemptOutcome (α : Type) where
  | ok (v : α)
  | httpStatusError (code : Nat)
  | transportError
  | retryableError
  | otherError
deriving DecidableEq, Repr

/-- The error finally raised out of the retry wrapper.  `noneRaised`
models the `raise last_exception` line executing with
`last_exception = None`, which in Python is a `TypeError`; it is reachable
only when `max_attempts = 0`. -/
inductive RetryErr where
  | httpStatusError (code : Nat)
  | transportError
  | retryableError
  | otherError
  | noneRaised
deriving DecidableEq, Repr

/-- The error corresponding to a failed attempt outcome (total; the `ok`
case is never used under the hypotheses that apply it). -/
def retryErrOf : AttemptOutcome α → RetryErr
  | .ok _ => .noneRaised
  | .httpStatusError c => .httpStatusError c
  | .transportError => .transportError
  | .retryableError => .retryableError
  | .otherError => .otherError

/-- Observable result of a `with_retry`-wrapped call: the value or final
error, how many attempts ran, and the backoff sleeps performed (in
order). -/
structure RetryTrace (α : Type) where
  result : Except RetryErr α
  attemptsMade : Nat
  sleeps : List ℚ

/-- The `for attempt in range(config.max_attempts)` loop of `with_retry`:
`attempt` is the current index, `remaining` the number of loop iterations
left (`remaining = 0` models the loop ending and reaching
`raise last_exception`).  The source checks, in order: non-retryable
status codes propagate immediately; otherwise a failure on any attempt
but the last sleeps `calculate_delay(...)` and continues; a failure on
the last attempt re-raises. -/
def retryLoop (cfg : RetryConfig) (op : Nat → AttemptOutcome α) (noise : Nat → ℚ) :
    Nat → Nat → List ℚ → RetryTrace α
  | attempt, 0, sleeps => ⟨.error .noneRaised, attempt, sleeps⟩
  | attempt, remaining + 1, sleeps =>
    match op attempt with
    | .ok v => ⟨.ok v, attempt + 1, sleeps⟩
    | .otherError => ⟨.error .otherError, attempt + 1, sleeps⟩
    | .httpStatusError c =>
      if !cfg.retry_on_status.contains c then
        ⟨.error (.httpStatusError c), attempt + 1, sleeps⟩
      else if remaining == 0 then
        ⟨.error (.httpStatusError c), attempt + 1, sleeps⟩
      else
        retryLoop cfg op noise (attempt + 1) remaining
          (sleeps ++ [calculate_delay attempt cfg (some c) (noise attempt)])
    | .transportError =>
      if remaining == 0 then
        ⟨.error .transportError, attempt + 1, sleeps⟩
      else
        retryLoop cfg op noise (attempt + 1) remaining
          (sleeps ++ [calculate_delay attempt cfg none (noise attempt)])
    | .retryableError =>
      if remaining == 0 then
        ⟨.error .retryableError, attempt + 1, sleeps⟩
      else
        retryLoop cfg op noise (attempt + 1) remaining
          (sleeps ++ [calculate_delay attempt cfg none (noise attempt)])

/-- Embedding of the `with_retry(config)` wrapper applied to an operation:
run up to `max_attempts` attempts from attempt `0`. -/
def with_retry (cfg : RetryConfig) (op : Nat → AttemptOutcome α) (noise : Nat → ℚ) :
    RetryTrace α :=
  retryLoop cfg op noise 0 cfg.max_attempts []

/-! ## The feed-pagination loop of `InstagramClient.scrape_full`
(`scraper/client.py`)

`scrapeFullPosts` embeds the posts phase of `scrape_full`: the `while
more_available` loop, the three identical `except` handlers (append the
message, break), the final trim to `max_posts` and the construction of
the posts-related `ScrapeResult` fields.  The preceding profile fetch
(whose failure re-raises out of the whole call) and the `user_id`
back-fill (which touches only `profile.user_id`) are outside the posts
phase and are not modelled here.  Each element of `pages` is the outcome
of one `_fetch_feed_page` call: a decoded JSON dict, or the exception the
call raised (`BlockDetectedError`, `ParserError`, or anything else —
handled identically by the three `except` clauses). -/

/-- Outcome of one `_fetch_feed_page(username, next_max_id)` call. -/
inductive FeedOutcome where
  | success (data : List (String × Json))
  | blockError (msg : String)
  | parserError (msg : String)
  | otherError (msg : String)

/-- `str(e)` for a parse-phase exception escaping
`parse_feed_response` inside the loop body (the generic handler catches
it; only non-emptiness of the recorded message matters). -/
def pyErrMsg : PyErr → String
  | .attributeError => "AttributeError"
  | .typeError => "TypeError"
  | .valueError => "ValueError"
  | .overflowError => "OverflowError"
  | .keyError => "KeyError"
  | .validationError => "ValidationError"

/-- The loop state of `scrape_full`'s pagination phase. -/
structure PageState where
  allPosts : List PostData
  errors : List String
  nextMaxId : Json
  moreAvailable : Json
  pagesFetched : Nat

/-- `if max_posts and len(all_posts) >= max_posts:` — the cap is active
only when `max_posts` is neither `None` nor `0` (Python truthiness). -/
def capReached (maxPosts : Option Nat) (len : Nat) : Bool :=
  match maxPosts with
  | some k => k != 0 && Nat.ble k len
  | none => false

/-- The `while more_available:` loop, consuming one element of `pages`
per `_fetch_feed_page` call.  Loop exits mirror the source, in order: the
`while` condition, the cap check, an exception (append message, break),
and the `if not next_max_id: break` check after a successful parse.  The
`pages` list only needs to be long enough for the run under
consideration: every theorem below exercises runs that terminate before
exhausting it. -/
def scrapeLoop (username : String) (maxPosts : Option Nat) :
    List FeedOutcome → PageState → PageState
  | [], st => st
  | p :: rest, st =>
    if !pyTruthy st.moreAvailable then st
    else if capReached maxPosts st.allPosts.length then st
    else
      match p with
      | .blockError msg | .parserError msg | .otherError msg =>
        { st with errors := st.errors ++ [msg],
                  pagesFetched := st.pagesFetched + 1 }
      | .success data =>
        match parse_feed_response data username with
        | .error e =>
          { st with errors := st.errors ++ [pyErrMsg e],
                    pagesFetched := st.pagesFetched + 1 }
        | .ok (posts, nmi, ma) =>
          let st' := { st with allPosts := st.allPosts ++ posts,
                               nextMaxId := nmi,
                               moreAvailable := ma,
                               pagesFetched := st.pagesFetched + 1 }
          if !pyTruthy nmi then st'
          else scrapeLoop username maxPosts rest st'

/-- The posts-related fields of the `ScrapeResult` that `scrape_full`
builds. -/
structure ScrapeResultModel where
  posts : List PostData
  total_posts_scraped : Nat
  has_more_posts : Bool
  errors : List String
  pagesFetched : Nat
deriving Repr

/-- Loop-entry state of the pagination phase: no posts, no errors,
`next_max_id = None`, `more_available = True`. -/
def initialPageState : PageState :=
  { allPosts := [], errors := [], nextMaxId := .null,
    moreAvailable := .bool true, pagesFetched := 0 }

/-- The posts phase of `scrape_full(username, max_posts)`: run the
pagination loop, trim to `max_posts` when the cap is active and strictly
exceeded, and assemble the posts-related result fields
(`has_more_posts = more_available and bool(next_max_id)`). -/
def scrapeFullPosts (username : String) (maxPosts : Option Nat)
    (pages : List FeedOutcome) : ScrapeResultModel :=
  let st := scrapeLoop username maxPosts pages initialPageState
  let posts :=
    match maxPosts with
    | some k =>
      if k != 0 && Nat.blt k st.allPosts.length then st.allPosts.take k
      else st.allPosts
    | none => st.allPosts
  { posts := posts
    total_posts_scraped := posts.length
    has_more_posts := pyTruthy st.moreAvailable && pyTruthy st.nextMaxId
    errors := st.errors
    pagesFetched := st.pagesFetched }

deriving instance DecidableEq for Except

/-! ## Concrete scenario data and predicates used by the theorems -/

/-- A well-formed feed item with primary key `i` (image post, shortcode
`"c" ++ i`). -/
def feedItem (i : Nat) : Json :=
  .obj [("pk", .num i), ("code", .str ("c" ++ toString i)),
        ("taken_at", .num 1), ("media_type", .num 1)]

/-- A feed-API page response: `count` items starting at `startIdx`, an
optional pagination cursor and a continuation flag. -/
def feedPage (startIdx count : Nat) (cursor : Option String) (more : Bool) :
    List (String × Json) :=
  [("items", .arr ((List.range count).map (fun i => feedItem (startIdx + i)))),
   ("more_available", .bool more)] ++
    (match cursor with | some c => [("next_max_id", .str c)] | none => [])

/-- The spec's pagination scenario: pages of 12, 12 and 6 items, the
first two with cursors, the last with no cursor. -/
def threePages : List FeedOutcome :=
  [.success (feedPage 0 12 (some "C1") true),
   .success (feedPage 12 12 (some "C2") true),
   .success (feedPage 24 6 none false)]

/-- The concrete partial-failure run of the spec: page 1 succeeds with 12
items, a cursor and `more_available = true`; fetching page 2 raises a
block error. -/
def c1Pages : List FeedOutcome :=
  [.success (feedPage 0 12 (some "C1") true),
   .blockError "Block detected: login_required. Feed API returned login required"]

/-- A feed item carrying a given media-type code and product type (the
other fields are fixed well-formed values). -/
def mediaItem (code : Int) (prod : String) : Json :=
  .obj [("pk", .num 1), ("code", .str "A"), ("taken_at", .num 1),
        ("media_type", .num code), ("product_type", .str prod)]

/-- A retry policy differing from the default only in its exponential
base; the `RetryConfig` dataclass places no constraint on the field. -/
def cfgZeroExp : RetryConfig := { exponential_base := 0 }

/-- An attempt outcome that `with_retry` treats as retryable: a status
error with an allow-listed code, a transport error, or a
`RetryableError`. -/
def retryableFail (cfg : RetryConfig) : AttemptOutcome α → Prop
  | .ok _ => False
  | .httpStatusError c => cfg.retry_on_status.contains c = true
  | .transportError => True
  | .retryableError => True
  | .otherError => False

/-- A feed page outcome that the pagination loop traverses fully: a
successful fetch whose parse succeeds with a truthy cursor and a truthy
continuation flag. -/
def goodPage (username : String) (p : FeedOutcome) : Prop :=
  ∃ data posts nmi ma,
    p = .success data ∧
    parse_feed_response data username = .ok (posts, nmi, ma) ∧
    pyTruthy nmi = true ∧ pyTruthy ma = true

/-- The posts a successful page contributes (empty for failed fetches or
failed parses). -/
def pagePosts (username : String) (p : FeedOutcome) : List PostData :=
  match p with
  | .success data =>
    match parse_feed_response data username with
    | .ok (posts, _, _) => posts
    | .error _ => []
  | _ => []

/-- A concrete well-formed post (used to witness cap behaviour). -/
def somePost : PostData :=
  mkPostData
    { id := "1", shortcode := "A", caption := none, like_count := 0,
      comment_count := 0, view_count := none, timestamp := 1,
      media_type := "image", is_video := false, video_duration := none,
      media_urls := [], thumbnail_url := some "", location := none,
      owner_username := "u", owner_id := "1" }

/-! ## Theorems for the claims -/

/-- C2: for every response body containing both the `og:title` and
`og:description` meta markers, `_check_for_blocks` returns normally
(classification `None`) — even when the body also contains a literal
denial phrase from the block-pattern tables — provided the response URL
path indicates neither a login nor a challenge redirect. -/
theorem c2_og_suppression (urlPath html : String)
    (ht : strContains html "property=\"og:title\"" = true)
    (hd : strContains html "property=\"og:description\"" = true)
    (hl : strContains urlPath "/accounts/login" = false)
    (hc : strContains urlPath "/challenge" = false) :
    checkForBlocks urlPath html = .ok := by
  unfold checkForBlocks
  rw [ht, hd, hl, hc]
  simp

/-- Witness for C2: a body that carries both meta markers together with
the literal challenge-denial phrase (`checkpoint_required`) and the
rate-limit phrase, on a non-redirected URL path, classifies as `None`. -/
theorem c2_og_suppression_witness :
    checkForBlocks "/p/DEMO/"
      "<meta property=\"og:title\"><meta property=\"og:description\"> checkpoint_required Please wait a few minutes"
      = .ok :=
  c2_og_suppression _ _ (by decide) (by decide) (by decide) (by decide)

/-- Auxiliary: `int()` of a Python float fails only by `OverflowError`. -/
theorem pyIntOfFloat_error_eq {f : PyFloat} {e : PyErr}
    (h : pyIntOfFloat f = .error e) : e = .overflowError := by
  cases f with
  | finite q => simp [pyIntOfFloat] at h
  | inf => simpa [pyIntOfFloat, eq_comm] using h
  | ninf => simpa [pyIntOfFloat, eq_comm] using h

set_option maxRecDepth 10000 in
/-- C6 counterexample: `parse_count_string` is not total — on
`"1e400K"` the inner `float("1e400")` evaluates to `inf` and
`int(inf * 1000)` raises `OverflowError`, which the function's
`except ValueError` clause does not catch. -/
theorem c6_counterexample_overflow_raises :
    parse_count_string "1e400K" = .error .overflowError := by decide

/-- C6 (amended): the concrete count-string mappings hold
(`"31K"`→31000, `"1.5M"`→1500000, `"2B"`→2000000000, `"12,345"`→12345,
`""`→0, non-numeric→0), and the function is total except that a count
string whose numeric part overflows the binary64 float range raises
`OverflowError` — the only error it can raise. -/
theorem c6_amended_count_parsing :
    parse_count_string "31K" = .ok 31000 ∧
    parse_count_string "1.5M" = .ok 1500000 ∧
    parse_count_string "2B" = .ok 2000000000 ∧
    parse_count_string "12,345" = .ok 12345 ∧
    parse_count_string "" = .ok 0 ∧
    parse_count_string "abc" = .ok 0 ∧
    (∀ s e, parse_count_string s = .error e → e = .overflowError) := by
  refine ⟨by decide, by decide, by decide, by decide, by decide, by decide, ?_⟩
  intro s e h
  unfold parse_count_string at h
  split at h
  · simp at h
  · dsimp only at h
    split at h
    · split at h
      · simp at h
      · split at h
        · simp at h
        · rename_i heq
          rw [Except.error.injEq] at h
          subst h
          exact pyIntOfFloat_error_eq heq
    · split at h <;> simp at h

set_option maxRecDepth 10000 in
/-- Witness for C6 (amended): the totality clause applied at the
concrete overflowing input. -/
theorem c6_amended_count_parsing_witness :
    PyErr.overflowError = PyErr.overflowError :=
  c6_amended_count_parsing.2.2.2.2.2.2 "1e400K" .overflowError (by decide)

/-- C8 counterexample: the permalink IS independently assignable — a
constructor-supplied non-empty permalink is kept verbatim
(`if not self.permalink` guards the auto-generation), so with shortcode
`"ABC123"` the stored permalink can differ from the canonical URL derived
from the shortcode. -/
theorem c8_counterexample_supplied_permalink :
    (mkPostData
      { id := "1", shortcode := "ABC123", caption := none, like_count := 0,
        comment_count := 0, view_count := none, timestamp := 0,
        media_type := "image", is_video := false, video_duration := none,
        media_urls := [], thumbnail_url := some "", location := none,
        permalink := "https://evil.example/x", owner_username := "u",
        owner_id := "1" }).permalink = "https://evil.example/x" ∧
    "https://evil.example/x" ≠ "https://www.instagram.com/p/ABC123/" := by
  exact ⟨by decide, by decide⟩

/-- C8 (amended): when no permalink is supplied (the field keeps its
empty default) and the shortcode is non-empty, the stored permalink is
the canonical URL derived from the shortcode — the same shortcode yields
the same permalink for any two such records; a supplied non-empty
permalink, however, is stored verbatim. -/
theorem c8_amended_permalink (a b : PostInit)
    (hs : a.shortcode = b.shortcode) (hne : a.shortcode ≠ "")
    (hpa : a.permalink = "") (hpb : b.permalink = "") :
    (mkPostData a).permalink = "https://www.instagram.com/p/" ++ a.shortcode ++ "/" ∧
    (mkPostData a).permalink = (mkPostData b).permalink := by
  have ha : (mkPostData a).permalink = "https://www.instagram.com/p/" ++ a.shortcode ++ "/" := by
    simp [mkPostData, hpa, hne]
  have hb : (mkPostData b).permalink = "https://www.instagram.com/p/" ++ b.shortcode ++ "/" := by
    have hbne : b.shortcode ≠ "" := hs ▸ hne
    simp [mkPostData, hpb, hbne]
  exact ⟨ha, by rw [ha, hb, hs]⟩

/-- Witness for C8 (amended): two records sharing shortcode `"ABC123"`
but differing in every other supplied field derive the same canonical
permalink. -/
theorem c8_amended_permalink_witness :
    (mkPostData
      { id := "1", shortcode := "ABC123", caption := none, like_count := 0,
        comment_count := 0, view_count := none, timestamp := 0,
        media_type := "image", is_video := false, video_duration := none,
        media_urls := [], thumbnail_url := some "", location := none,
        owner_username := "u", owner_id := "1" }).permalink
      = "https://www.instagram.com/p/" ++ "ABC123" ++ "/" :=
  (c8_amended_permalink
    { id := "1", shortcode := "ABC123", caption := none, like_count := 0,
      comment_count := 0, view_count := none, timestamp := 0,
      media_type := "image", is_video := false, video_duration := none,
      media_urls := [], thumbnail_url := some "", location := none,
      owner_username := "u", owner_id := "1" }
    { id := "2", shortcode := "ABC123", caption := some "x", like_count := 9,
      comment_count := 9, view_count := some 9, timestamp := 9,
      media_type := "reel", is_video := true, video_duration := some 9,
      media_urls := ["m"], thumbnail_url := none, location := none,
      owner_username := "v", owner_id := "2" }
    rfl (by decide) rfl rfl).1

/-- C9 counterexample: the claim's "same two-tier-plus-fallback order"
for the anti-bot signature id does not hold of the pattern table — the
source's `PATTERNS` has a secondary pattern for the application id
(`app_id_alt`) but no secondary pattern for the asbd id: discovery for it
is single-pattern-then-fallback. -/
theorem c9_counterexample_no_secondary_asbd_pattern :
    PATTERNS.lookup "asbd_id_alt" = none ∧ (PATTERNS.lookup "app_id_alt").isSome = true := by
  exact ⟨by decide, by decide⟩

/-- C9 (amended): token discovery is a pure function of
`(html, csrfToken)`: the csrf token of the result always equals the
argument; the application id follows primary pattern, then secondary
pattern, then the fixed fallback constant; the asbd id follows its single
pattern, then the fixed fallback constant. -/
theorem c9_amended_token_discovery (html csrf : String) :
    (discover_all html csrf).csrf_token = csrf ∧
    (∀ d, searchPattern "app_id" html = some d →
      (discover_all html csrf).app_id = d) ∧
    (searchPattern "app_id" html = none →
      ∀ d, searchPattern "app_id_alt" html = some d →
        (discover_all html csrf).app_id = d) ∧
    (searchPattern "app_id" html = none →
      searchPattern "app_id_alt" html = none →
        (discover_all html csrf).app_id = "936619743392459") ∧
    (∀ d, searchPattern "asbd_id" html = some d →
      (discover_all html csrf).asbd_id = some d) ∧
    (searchPattern "asbd_id" html = none →
      (discover_all html csrf).asbd_id = some "129477") := by
  refine ⟨rfl, ?_, ?_, ?_, ?_, ?_⟩
  · intro d hd
    simp [discover_all, extract_app_id, hd]
  · intro h1 d hd
    simp [discover_all, extract_app_id, h1, hd]
  · intro h1 h2
    simp [discover_all, extract_app_id, h1, h2, FALLBACK_VALUES]
  · intro d hd
    simp [discover_all, extract_asbd_id, hd]
  · intro h
    simp [discover_all, extract_asbd_id, h, FALLBACK_VALUES]
    decide

/-- Witness for C9 (amended): on an empty document both ids fall back to
the hardcoded constants and the csrf token is passed through. -/
theorem c9_amended_token_discovery_witness :
    (discover_all "" "tok").csrf_token = "tok" ∧
    (discover_all "" "tok").app_id = "936619743392459" ∧
    (discover_all "" "tok").asbd_id = some "129477" :=
  ⟨(c9_amended_token_discovery "" "tok").1,
   (c9_amended_token_discovery "" "tok").2.2.2.1 (by decide) (by decide),
   (c9_amended_token_discovery "" "tok").2.2.2.2.2 (by decide)⟩

/-- Auxiliary: the item loop of `parse_feed_response` keeps exactly the
successfully parsed items, in their original order. -/
theorem parseItems_eq_filterMap (username : String) (xs : List Json) :
    parseItems username xs =
      xs.filterMap (fun it => (parse_feed_item it username).toOption) := by
  induction xs with
  | nil => rfl
  | cons it rest ih =>
    cases h : parse_feed_item it username <;>
      simp [parseItems, h, ih, Except.toOption]

/-- C10 counterexample: `parse_feed_response` can raise — when the
`items` value of the response dict is not iterable (here JSON `null`,
i.e. Python `None`), the `for item in items` loop raises `TypeError`, so
the function does not return normally on every feed response dict. -/
theorem c10_counterexample_items_not_iterable :
    parse_feed_response [("items", Json.null)] "u" = .error .typeError := by rfl

/-- C10 (amended): for every feed response dict whose `items` value is a
list, `parse_feed_response` returns normally; an item whose parsing
raises is skipped, and the returned post list is exactly the successfully
parsed items in their original feed order. -/
theorem c10_amended_skip_malformed_items
    (data : List (String × Json)) (username : String) (xs : List Json)
    (h : jGetD data "items" (.arr []) = .arr xs) :
    parse_feed_response data username =
      .ok (xs.filterMap (fun it => (parse_feed_item it username).toOption),
           jGet data "next_max_id", jGetD data "more_available" (.bool false)) := by
  unfold parse_feed_response
  rw [h]
  simp [pyIterE, parseItems_eq_filterMap]

/-- Witness for C10 (amended): a page whose second item is malformed (a
bare number has no `.get`) yields exactly the first and third items, in
order. -/
theorem c10_amended_skip_malformed_items_witness :
    parse_feed_response
      [("items", .arr [feedItem 0, .num 7, feedItem 2]), ("next_max_id", .str "C1"),
       ("more_available", .bool true)] "u" =
      .ok ([feedItem 0, Json.num 7, feedItem 2].filterMap
            (fun it => (parse_feed_item it "u").toOption),
           .str "C1", .bool true) :=
  c10_amended_skip_malformed_items _ "u" _ (by rfl)

/-- C3 counterexample: the pre-jitter backoff delay is NOT non-decreasing
in the attempt index for every retry policy — the `RetryConfig` dataclass
accepts any `exponential_base`, and with `exponential_base = 0` (all
other fields default) the delay at attempt 1 is strictly below the delay
at attempt 0, although `0 ≤ 1`. -/
theorem c3_counterexample_decreasing_delay :
    preJitterDelay 1 cfgZeroExp none < preJitterDelay 0 cfgZeroExp none := by
  norm_num [preJitterDelay, cfgZeroExp, defaultRetryConfig, min_def]

/-- C3 (amended): for every retry policy with non-negative base delay and
exponential base at least 1 (which includes the default policy), the
pre-jitter backoff delay is non-decreasing in the attempt index for a
fixed status; with the default policy, the rate-limited (status 429) base
delay at attempt 0 equals exactly 5 times the non-rate-limited base delay
at attempt 0; and the final returned delay is always at least 0.1
seconds, for every policy, status and jitter draw. -/
theorem c3_amended_backoff_properties :
    (∀ (cfg : RetryConfig) (status : Option Nat) (i j : Nat),
      0 ≤ cfg.base_delay → 1 ≤ cfg.exponential_base → i ≤ j →
        preJitterDelay i cfg status ≤ preJitterDelay j cfg status) ∧
    preJitterDelay 0 defaultRetryConfig (some 429) =
      5 * preJitterDelay 0 defaultRetryConfig none ∧
    (∀ (attempt : Nat) (cfg : RetryConfig) (status : Option Nat) (noise : ℚ),
      1/10 ≤ calculate_delay attempt cfg status noise) := by
  refine ⟨?_, ?_, ?_⟩
  · intro cfg status i j hbd hexp hij
    unfold preJitterDelay
    have hb0 : 0 ≤ (if status == some 429 then cfg.base_delay * 5 else cfg.base_delay) := by
      split
      · exact mul_nonneg hbd (by norm_num)
      · exact hbd
    have hpow : cfg.exponential_base ^ i ≤ cfg.exponential_base ^ j :=
      pow_le_pow_right₀ hexp hij
    exact min_le_min (mul_le_mul_of_nonneg_left hpow hb0) le_rfl
  · norm_num [preJitterDelay, defaultRetryConfig, min_def]
  · intro attempt cfg status noise
    unfold calculate_delay
    exact le_max_right _ _

/-- Witness for C3 (amended): the monotonicity clause at the default
policy (base delay 2 ≥ 0, exponential base 2 ≥ 1) for attempts 0 ≤ 1,
and the floor clause at the default policy with a large negative jitter
draw. -/
theorem c3_amended_backoff_properties_witness :
    preJitterDelay 0 defaultRetryConfig none ≤ preJitterDelay 1 defaultRetryConfig none ∧
    1/10 ≤ calculate_delay 0 defaultRetryConfig none (-5) :=
  ⟨c3_amended_backoff_properties.1 defaultRetryConfig none 0 1
      (by decide) (by decide) (by decide),
   c3_amended_backoff_properties.2.2 0 defaultRetryConfig none (-5)⟩

/-- C7: media-type resolution in `parse_feed_item` follows the fixed
priority: code 8 yields `"carousel"` regardless of the product type;
otherwise code 2 with product type `"clips"` yields `"reel"` and code 2
with any other product type yields `"video"`; every other code yields
`"image"`. -/
theorem c7_media_type_priority (code : Int) (prod : String) :
    (parse_feed_item (mediaItem code prod) "u").map PostData.media_type =
      .ok (if code = 8 then "carousel"
           else if code = 2 then (if prod = "clips" then "reel" else "video")
           else "image") := by
  have base : (parse_feed_item (mediaItem code prod) "u").map PostData.media_type =
      .ok (if code == 8 then "carousel"
           else if code == 2 then (if prod == "clips" then "reel" else "video")
           else "image") := rfl
  rw [base]
  by_cases h8 : code = 8
  · simp [h8]
  · by_cases h2 : code = 2
    · by_cases hp : prod = "clips" <;> simp [h8, h2, hp]
    · simp [h8, h2]

/-- Auxiliary: if attempts `attempt, …, attempt+k-1` fail retryably and
attempt `attempt+k` fails with a status outside the retryable set, the
loop stops right there: the non-retryable error is returned, `k+1`
attempts ran in total, and exactly `k` sleeps happened (none for the
failing attempt itself). -/
theorem retryLoop_nonretryable {α : Type} (cfg : RetryConfig)
    (op : Nat → AttemptOutcome α) (noise : Nat → ℚ) (c : Nat)
    (hc : cfg.retry_on_status.contains c = false) :
    ∀ (k attempt r : Nat) (sleeps : List ℚ), k < r →
      (∀ j, j < k → retryableFail cfg (op (attempt + j))) →
      op (attempt + k) = .httpStatusError c →
      ∃ ds : List ℚ,
        retryLoop cfg op noise attempt r sleeps =
          ⟨.error (.httpStatusError c), attempt + k + 1, sleeps ++ ds⟩ ∧
        ds.length = k := by
  intro k
  induction k with
  | zero =>
    intro attempt r sleeps hkr _ hop
    obtain ⟨r', rfl⟩ : ∃ r', r = r' + 1 := ⟨r - 1, by omega⟩
    rw [Nat.add_zero] at hop
    refine ⟨[], ?_, rfl⟩
    have hmem : c ∉ cfg.retry_on_status := by simpa using hc
    unfold retryLoop
    rw [hop]
    simp [hc, hmem]
  | succ k ih =>
    intro attempt r sleeps hkr hprev hop
    obtain ⟨r', rfl⟩ : ∃ r', r = r' + 1 := ⟨r - 1, by omega⟩
    have hr' : (r' == 0) = false := by
      have : 0 < r' := by omega
      simp
      omega
    have h0 : retryableFail cfg (op attempt) := by
      simpa using hprev 0 (by omega)
    have hshift : ∀ j, j < k → retryableFail cfg (op (attempt + 1 + j)) := by
      intro j hj
      have := hprev (j + 1) (by omega)
      simpa [Nat.add_assoc, Nat.add_comm 1 j] using this
    have hop' : op (attempt + 1 + k) = .httpStatusError c := by
      rw [show attempt + 1 + k = attempt + (k + 1) by omega]
      exact hop
    cases hopa : op attempt with
    | ok v => rw [hopa] at h0; exact absurd h0 (by simp [retryableFail])
    | otherError => rw [hopa] at h0; exact absurd h0 (by simp [retryableFail])
    | httpStatusError c' =>
      rw [hopa] at h0
      have hcontains : cfg.retry_on_status.contains c' = true := h0
      obtain ⟨ds, hds, hlen⟩ :=
        ih (attempt + 1) r' (sleeps ++ [calculate_delay attempt cfg (some c') (noise attempt)])
          (by omega) hshift hop'
      refine ⟨calculate_delay attempt cfg (some c') (noise attempt) :: ds, ?_, by simp [hlen]⟩
      unfold retryLoop
      rw [hopa]
      simp only [hcontains, Bool.not_true, Bool.false_eq_true, if_false, hr']
      rw [hds]
      simp [Nat.add_assoc, Nat.add_comm 1 k]
    | transportError =>
      obtain ⟨ds, hds, hlen⟩ :=
        ih (attempt + 1) r' (sleeps ++ [calculate_delay attempt cfg none (noise attempt)])
          (by omega) hshift hop'
      refine ⟨calculate_delay attempt cfg none (noise attempt) :: ds, ?_, by simp [hlen]⟩
      unfold retryLoop
      rw [hopa]
      simp only [hr']
      rw [if_neg (by simp)]
      rw [hds]
      simp [Nat.add_assoc, Nat.add_comm 1 k]
    | retryableError =>
      obtain ⟨ds, hds, hlen⟩ :=
        ih (attempt + 1) r' (sleeps ++ [calculate_delay attempt cfg none (noise attempt)])
          (by omega) hshift hop'
      refine ⟨calculate_delay attempt cfg none (noise attempt) :: ds, ?_, by simp [hlen]⟩
      unfold retryLoop
      rw [hopa]
      simp only [hr']
      rw [if_neg (by simp)]
      rw [hds]
      simp [Nat.add_assoc, Nat.add_comm 1 k]

/-- Auxiliary: if every one of the `r` remaining attempts fails
retryably, the loop runs them all and re-raises the failure of the last
attempt, having slept `r - 1` times. -/
theorem retryLoop_exhaust {α : Type} (cfg : RetryConfig)
    (op : Nat → AttemptOutcome α) (noise : Nat → ℚ) :
    ∀ (r attempt : Nat) (sleeps : List ℚ), 0 < r →
      (∀ j, j < r → retryableFail cfg (op (attempt + j))) →
      ∃ ds : List ℚ,
        retryLoop cfg op noise attempt r sleeps =
          ⟨.error (retryErrOf (op (attempt + r - 1))), attempt + r, sleeps ++ ds⟩ ∧
        ds.length = r - 1 := by
  intro r
  induction r with
  | zero => intro attempt sleeps h; omega
  | succ r' ih =>
    intro attempt sleeps _ hall
    have h0 : retryableFail cfg (op attempt) := by simpa using hall 0 (by omega)
    by_cases hr0 : r' = 0
    · subst hr0
      refine ⟨[], ?_, rfl⟩
      cases hopa : op attempt with
      | ok v => rw [hopa] at h0; exact absurd h0 (by simp [retryableFail])
      | otherError => rw [hopa] at h0; exact absurd h0 (by simp [retryableFail])
      | httpStatusError c' =>
        rw [hopa] at h0
        unfold retryLoop
        rw [hopa, show attempt + (0 + 1) - 1 = attempt by omega, hopa]
        simp [h0, retryErrOf]
      | transportError =>
        unfold retryLoop
        rw [hopa, show attempt + (0 + 1) - 1 = attempt by omega, hopa]
        simp [retryErrOf]
      | retryableError =>
        unfold retryLoop
        rw [hopa, show attempt + (0 + 1) - 1 = attempt by omega, hopa]
        simp [retryErrOf]
    · have hr' : (r' == 0) = false := by simp; omega
      have hshift : ∀ j, j < r' → retryableFail cfg (op (attempt + 1 + j)) := by
        intro j hj
        have := hall (j + 1) (by omega)
        simpa [Nat.add_assoc, Nat.add_comm 1 j] using this
      have hlast : attempt + 1 + r' - 1 = attempt + (r' + 1) - 1 := by omega
      have htot : attempt + 1 + r' = attempt + (r' + 1) := by omega
      cases hopa : op attempt with
      | ok v => rw [hopa] at h0; exact absurd h0 (by simp [retryableFail])
      | otherError => rw [hopa] at h0; exact absurd h0 (by simp [retryableFail])
      | httpStatusError c' =>
        rw [hopa] at h0
        obtain ⟨ds, hds, hlen⟩ :=
          ih (attempt + 1) (sleeps ++ [calculate_delay attempt cfg (some c') (noise attempt)])
            (by omega) hshift
        refine ⟨calculate_delay attempt cfg (some c') (noise attempt) :: ds, ?_, by simp [hlen]; omega⟩
        have hcontains : cfg.retry_on_status.contains c' = true := h0
        unfold retryLoop
        rw [hopa]
        simp only [hcontains, Bool.not_true, Bool.false_eq_true, if_false, hr']
        rw [hds, hlast, htot]
        simp [hcontains]
      | transportError =>
        obtain ⟨ds, hds, hlen⟩ :=
          ih (attempt + 1) (sleeps ++ [calculate_delay attempt cfg none (noise attempt)])
            (by omega) hshift
        refine ⟨calculate_delay attempt cfg none (noise attempt) :: ds, ?_, by simp [hlen]; omega⟩
        unfold retryLoop
        rw [hopa]
        simp only [hr']
        rw [if_neg (by simp)]
        rw [hds, hlast, htot]
        simp
      | retryableError =>
        obtain ⟨ds, hds, hlen⟩ :=
          ih (attempt + 1) (sleeps ++ [calculate_delay attempt cfg none (noise attempt)])
            (by omega) hshift
        refine ⟨calculate_delay attempt cfg none (noise attempt) :: ds, ?_, by simp [hlen]; omega⟩
        unfold retryLoop
        rw [hopa]
        simp only [hr']
        rw [if_neg (by simp)]
        rw [hds, hlast, htot]
        simp

/-- C4: (a) when the wrapped operation fails with a status error whose
code is outside the policy's retryable set (after any number of earlier
retryable failures), `with_retry` re-raises that error on that same
attempt: no further attempts run, and no sleep is added for the failing
attempt (exactly one sleep per earlier failure); (b) after all
`max_attempts` attempts fail retryably, the failure of the last attempt
is re-raised — never swallowed. -/
theorem c4_retry_propagation :
    (∀ (α : Type) (cfg : RetryConfig) (op : Nat → AttemptOutcome α)
       (noise : Nat → ℚ) (i c : Nat),
       i < cfg.max_attempts →
       (∀ j, j < i → retryableFail cfg (op j)) →
       op i = .httpStatusError c →
       cfg.retry_on_status.contains c = false →
         (with_retry cfg op noise).result = .error (.httpStatusError c) ∧
         (with_retry cfg op noise).attemptsMade = i + 1 ∧
         (with_retry cfg op noise).sleeps.length = i) ∧
    (∀ (α : Type) (cfg : RetryConfig) (op : Nat → AttemptOutcome α)
       (noise : Nat → ℚ),
       0 < cfg.max_attempts →
       (∀ j, j < cfg.max_attempts → retryableFail cfg (op j)) →
         (with_retry cfg op noise).result =
           .error (retryErrOf (op (cfg.max_attempts - 1))) ∧
         (with_retry cfg op noise).attemptsMade = cfg.max_attempts) := by
  constructor
  · intro α cfg op noise i c hi hprev hop hc
    obtain ⟨ds, hds, hlen⟩ :=
      retryLoop_nonretryable cfg op noise c hc i 0 cfg.max_attempts [] hi
        (by simpa using hprev) (by simpa using hop)
    unfold with_retry
    rw [hds]
    simp [hlen]
  · intro α cfg op noise hpos hall
    obtain ⟨ds, hds, hlen⟩ :=
      retryLoop_exhaust cfg op noise cfg.max_attempts 0 [] hpos (by simpa using hall)
    unfold with_retry
    rw [hds]
    simp

/-- Witness for C4: with the default policy, (a) an immediate 404 (not in
the retryable set) is re-raised from attempt 0 with no sleeps; (b) five
transport failures exhaust the five attempts and the last transport
failure is re-raised. -/
theorem c4_retry_propagation_witness :
    ((with_retry defaultRetryConfig (fun _ => (.httpStatusError 404 : AttemptOutcome Unit))
        (fun _ => 0)).result = .error (.httpStatusError 404) ∧
      (with_retry defaultRetryConfig (fun _ => (.httpStatusError 404 : AttemptOutcome Unit))
        (fun _ => 0)).sleeps.length = 0) ∧
    (with_retry defaultRetryConfig (fun _ => (.transportError : AttemptOutcome Unit))
        (fun _ => 0)).result = .error .transportError :=
  ⟨⟨(c4_retry_propagation.1 Unit defaultRetryConfig _ _ 0 404 (by decide)
        (fun j hj => absurd hj (by omega)) rfl (by decide)).1,
    (c4_retry_propagation.1 Unit defaultRetryConfig _ _ 0 404 (by decide)
        (fun j hj => absurd hj (by omega)) rfl (by decide)).2.2⟩,
   (c4_retry_propagation.2 Unit defaultRetryConfig
        (fun _ => (.transportError : AttemptOutcome Unit)) (fun _ => 0) (by decide)
        (fun _ _ => True.intro)).1⟩

/-- Auxiliary: consuming one fully-traversed page appends its posts,
keeps the error list, and leaves the loop with truthy continuation
signals. -/
theorem scrapeLoop_good_cons (username : String) (p : FeedOutcome)
    (rest : List FeedOutcome) (st : PageState)
    (hg : goodPage username p) (hm : pyTruthy st.moreAvailable = true) :
    ∃ st', scrapeLoop username none (p :: rest) st = scrapeLoop username none rest st' ∧
      st'.allPosts = st.allPosts ++ pagePosts username p ∧
      st'.errors = st.errors ∧
      pyTruthy st'.moreAvailable = true ∧
      pyTruthy st'.nextMaxId = true := by
  obtain ⟨data, posts, nmi, ma, rfl, hparse, hnmi, hma⟩ := hg
  refine ⟨{ allPosts := st.allPosts ++ posts, errors := st.errors, nextMaxId := nmi,
            moreAvailable := ma, pagesFetched := st.pagesFetched + 1 },
          ?_, by simp [pagePosts, hparse], rfl, hma, hnmi⟩
  conv_lhs => rw [scrapeLoop]
  simp [capReached, hm, hparse, hnmi]

/-- Auxiliary: consuming a block of fully-traversed pages appends their
posts in order, keeps the error list, and (when the block is non-empty)
leaves truthy continuation signals. -/
theorem scrapeLoop_goods (username : String) :
    ∀ (good rest : List FeedOutcome) (st : PageState),
      (∀ p ∈ good, goodPage username p) → pyTruthy st.moreAvailable = true →
      ∃ st', scrapeLoop username none (good ++ rest) st = scrapeLoop username none rest st' ∧
        st'.allPosts = st.allPosts ++ (good.map (pagePosts username)).flatten ∧
        st'.errors = st.errors ∧
        pyTruthy st'.moreAvailable = true ∧
        (good = [] → st' = st) ∧
        (good ≠ [] → pyTruthy st'.nextMaxId = true) := by
  intro good
  induction good with
  | nil =>
    intro rest st _ hm
    exact ⟨st, rfl, by simp, rfl, hm, fun _ => rfl, fun h => absurd rfl h⟩
  | cons p good' ih =>
    intro rest st hall hm
    obtain ⟨st1, hstep, hposts1, herr1, hm1, hnmi1⟩ :=
      scrapeLoop_good_cons username p (good' ++ rest) st (hall p (by simp)) hm
    obtain ⟨st', hrec, hposts', herr', hm', hnil', hne'⟩ :=
      ih rest st1 (fun q hq => hall q (by simp [hq])) hm1
    refine ⟨st', ?_, ?_, ?_, hm', ?_, ?_⟩
    · rw [List.cons_append, hstep, hrec]
    · rw [hposts', hposts1]
      simp [List.append_assoc]
    · rw [herr', herr1]
    · intro h; simp at h
    · intro _
      rcases List.eq_nil_or_concat good' with h | _
      · subst h
        rw [hnil' rfl]
        exact hnmi1
      · by_cases hg : good' = []
        · rw [hnil' hg]
          exact hnmi1
        · exact hne' hg

/-- C1 counterexample: in the concrete partial-failure run (page 1: 12
items, cursor, `more_available = true`; page 2: block error) the
result's "more posts" flag is `true`, not the conservative false/unknown
the claim requires — `has_more_posts = more_available and
bool(next_max_id)` reflects the last successful page's signals. -/
theorem c1_counterexample_more_posts_flag :
    (scrapeFullPosts "u" none c1Pages).has_more_posts = true := by rfl

/-- C1 (amended): if fetching feed page N (N > 1) raises a block (or any)
error during a full scrape, the result contains every post accumulated
from pages 1..N-1 in order, its error list is exactly the one recorded
message (non-empty), and its "more posts" flag equals the conjunction of
the last successful page's continuation flag and cursor — hence `true`
here, not the conservative false/unknown of the claim; in the concrete
run (page 1: 12 items with a cursor; page 2: block error) the result
contains exactly those 12 items. -/
theorem c1_amended_partial_failure :
    (∀ (username msg : String) (good rest : List FeedOutcome),
      (∀ p ∈ good, goodPage username p) → good ≠ [] →
      (scrapeFullPosts username none (good ++ .blockError msg :: rest)).posts =
          (good.map (pagePosts username)).flatten ∧
      (scrapeFullPosts username none (good ++ .blockError msg :: rest)).errors = [msg] ∧
      (scrapeFullPosts username none (good ++ .blockError msg :: rest)).has_more_posts = true) ∧
    (scrapeFullPosts "u" none c1Pages).posts.length = 12 ∧
    (scrapeFullPosts "u" none c1Pages).posts =
      pagePosts "u" (.success (feedPage 0 12 (some "C1") true)) ∧
    (scrapeFullPosts "u" none c1Pages).errors ≠ [] := by
  refine ⟨?_, by rfl, by rfl, by decide⟩
  intro username msg good rest hall hne
  obtain ⟨st', hrec, hposts', herr', hm', _, hne'⟩ :=
    scrapeLoop_goods username good (.blockError msg :: rest) initialPageState hall rfl
  have hterm : scrapeLoop username none (.blockError msg :: rest) st' =
      { st' with errors := st'.errors ++ [msg], pagesFetched := st'.pagesFetched + 1 } := by
    unfold scrapeLoop
    rw [hm']
    simp [capReached]
  unfold scrapeFullPosts
  rw [hrec, hterm]
  refine ⟨?_, ?_, ?_⟩
  · simpa [initialPageState] using hposts'
  · simp [herr', initialPageState]
  · simp [hm', hne' hne]

/-- Witness for C1 (amended): the general clause applied to the concrete
single good page followed by a block error. -/
theorem c1_amended_partial_failure_witness :
    (scrapeFullPosts "u" none
        ([.success (feedPage 0 12 (some "C1") true)] ++
          .blockError "Block detected: login_required. " :: [])).errors =
      ["Block detected: login_required. "] ∧
    (scrapeFullPosts "u" none
        ([.success (feedPage 0 12 (some "C1") true)] ++
          .blockError "Block detected: login_required. " :: [])).has_more_posts = true := by
  have h := c1_amended_partial_failure.1 "u" "Block detected: login_required. "
    [.success (feedPage 0 12 (some "C1") true)] []
    (by
      intro p hp
      simp only [List.mem_singleton] at hp
      subst hp
      exact ⟨_, _, _, _, rfl, rfl, rfl, rfl⟩)
    (by simp)
  exact ⟨h.2.1, h.2.2⟩

/-- C5: for the spec's pagination scenario (pages of 12, 12 and 6 items,
the last with no cursor): capped at 20 posts, the scrape fetches only 2
pages — it stops after the first page that brings the accumulated total
to the cap or beyond — and returns exactly 20 posts (the over-fetched
page is truncated); uncapped, it returns exactly 30 posts; and in
general, once the accumulated total has reached an active cap, the loop
fetches no further page at all. -/
theorem c5_pagination_cap :
    (scrapeFullPosts "u" (some 20) threePages).posts.length = 20 ∧
    (scrapeFullPosts "u" (some 20) threePages).pagesFetched = 2 ∧
    (scrapeFullPosts "u" none threePages).posts.length = 30 ∧
    (scrapeFullPosts "u" none threePages).has_more_posts = false ∧
    (∀ (username : String) (k : Nat) (pages : List FeedOutcome) (st : PageState),
      k ≠ 0 → k ≤ st.allPosts.length →
      scrapeLoop username (some k) pages st = st) := by
  refine ⟨by rfl, by rfl, by rfl, by rfl, ?_⟩
  intro username k pages st hk hlen
  cases pages with
  | nil => rfl
  | cons p rest =>
    have hcap : capReached (some k) st.allPosts.length = true := by
      simp [capReached, hk, Nat.ble_eq, hlen]
    unfold scrapeLoop
    rw [hcap]
    cases pyTruthy st.moreAvailable <;> simp

/-- Witness for C5: the cap clause applied at cap 1 with one already
accumulated post — the pending page is not fetched. -/
theorem c5_pagination_cap_witness :
    scrapeLoop "u" (some 1) [.blockError "x"]
      { allPosts := [somePost], errors := [], nextMaxId := .null,
        moreAvailable := .bool true, pagesFetched := 1 } =
      { allPosts := [somePost], errors := [], nextMaxId := .null,
        moreAvailable := .bool true, pagesFetched := 1 } :=
  c5_pagination_cap.2.2.2.2 "u" 1 [.blockError "x"]
    { allPosts := [somePost], errors := [], nextMaxId := .null,
      moreAvailable := .bool true, pagesFetched := 1 } (by decide) (by decide)

end Scraper
